import Mathlib

/-!
Verification of the aggregation and reporting pipeline in `src/main.py`
(Lusha/Apollo API call detection scripts).

The records fetched from MongoDB are loosely typed documents; the fields the
analysis reads (`user_name`, `lusha_api_success`, `phone_found`,
`enrichment_source`) may be absent, `null`, booleans or strings.  We embed a
record as a bundle of optional dynamic values, `none` meaning the key is
absent from the document, mirroring Python's `dict.get`.
-/

namespace LushaApollo

/-- A dynamic (Python/BSON-style) field value: null, a boolean, or a string. -/
inductive Val where
  | vnull : Val
  | vbool : Bool → Val
  | vstr : String → Val
deriving DecidableEq, Repr

/-- A MongoDB record as read by `analyze_records`.  Each field is `none` when
the key is absent from the document; `some .vnull` is a present null value.
The `created_at` field is not read by the analysis and is omitted. -/
structure Record where
  user_name : Option Val := none
  lusha_api_success : Option Val := none
  phone_found : Option Val := none
  enrichment_source : Option Val := none
deriving DecidableEq, Repr

/-- Python `r.get('lusha_api_success') is True` (main.py line 122 / 150). -/
def isSuccess (r : Record) : Bool :=
  decide (r.lusha_api_success = some (Val.vbool true))

/-- Python `r.get('lusha_api_success') is False` (main.py line 123). -/
def isFailure (r : Record) : Bool :=
  decide (r.lusha_api_success = some (Val.vbool false))

/-- Python `r.get('enrichment_source') == 'APOLLO'` (main.py lines 124 / 162). -/
def isApollo (r : Record) : Bool :=
  decide (r.enrichment_source = some (Val.vstr "APOLLO"))

/-- Python `r.get('phone_found') is True` (main.py lines 127 / 151). -/
def isPhoneFound (r : Record) : Bool :=
  decide (r.phone_found = some (Val.vbool true))

/-- Python `r.get('phone_found') is False` (main.py line 128). -/
def isPhoneNotFound (r : Record) : Bool :=
  decide (r.phone_found = some (Val.vbool false))

/-- The overall counters computed at main.py lines 121-130. -/
structure OverallStats where
  total_calls : Nat := 0
  successful_calls : Nat := 0
  failed_calls : Nat := 0
  apollo_calls : Nat := 0
  lusha_calls : Nat := 0
  phone_found_total : Nat := 0
  phone_not_found_total : Nat := 0
  apollo_phone_found_total : Nat := 0
  lusha_phone_found_total : Nat := 0
deriving DecidableEq, Repr

/-- One per-user bucket of the `user_stats` defaultdict (main.py lines
133-142); the defaultdict initialises every counter to zero. -/
structure UserStats where
  total : Nat := 0
  success : Nat := 0
  failed : Nat := 0
  lusha_calls : Nat := 0
  lusha_phone_found : Nat := 0
  apollo_calls : Nat := 0
  apollo_phone_found : Nat := 0
  phone_found : Nat := 0
deriving DecidableEq, Repr

/-- Python `record.get('user_name', 'Unknown')` (main.py line 145): the key of
the record's user bucket.  The default applies only when the key is absent;
a present `null` value is used as the key itself. -/
def userKey (r : Record) : Val :=
  r.user_name.getD (Val.vstr "Unknown")

/-- The body of the per-record loop (main.py lines 148-169), updating one
user bucket in place. -/
def bumpStats (r : Record) (s : UserStats) : UserStats :=
  let s := { s with total := s.total + 1 }
  let s :=
    if isSuccess r then { s with success := s.success + 1 }
    else { s with failed := s.failed + 1 }
  let s :=
    if isPhoneFound r then { s with phone_found := s.phone_found + 1 } else s
  if isApollo r then
    let s := { s with apollo_calls := s.apollo_calls + 1 }
    if isPhoneFound r then
      { s with apollo_phone_found := s.apollo_phone_found + 1 }
    else s
  else
    let s := { s with lusha_calls := s.lusha_calls + 1 }
    if isPhoneFound r then
      { s with lusha_phone_found := s.lusha_phone_found + 1 }
    else s

/-- One iteration of the loop at main.py lines 144-169 over the `user_stats`
defaultdict, embedded as an insertion-ordered association list: if the
record's user key is already present its bucket is updated, otherwise a fresh
all-zero bucket is created at the end (Python dicts preserve insertion
order) and updated. -/
def addRecord : List (Val × UserStats) → Record → List (Val × UserStats)
  | [], r => [(userKey r, bumpStats r {})]
  | (k, s) :: rest, r =>
    if userKey r = k then (k, bumpStats r s) :: rest
    else (k, s) :: addRecord rest r

/-- The value returned by `analyze_records` (main.py lines 171-184). -/
structure AnalysisResult where
  overall : OverallStats
  user_stats : List (Val × UserStats)
deriving DecidableEq, Repr

/-- Embedding of `analyze_records` (main.py lines 118-184).  The overall
counters are the generator-expression sums of lines 121-130 and the per-user
map is the defaultdict filled by the loop of lines 144-169. -/
def analyze_records (records : List Record) : AnalysisResult :=
  let apollo := records.countP isApollo
  { overall :=
      { total_calls := records.length
        successful_calls := records.countP isSuccess
        failed_calls := records.countP isFailure
        apollo_calls := apollo
        lusha_calls := records.length - apollo
        phone_found_total := records.countP isPhoneFound
        phone_not_found_total := records.countP isPhoneNotFound
        apollo_phone_found_total :=
          records.countP (fun r => isPhoneFound r && isApollo r)
        lusha_phone_found_total :=
          records.countP (fun r => isPhoneFound r && !isApollo r) }
    user_stats := records.foldl addRecord [] }

/-- Comparison used by Python's `sorted(user_stats.items())` (main.py line
217): dict keys are unique, so tuple comparison reduces to comparing the
user-name keys lexicographically. -/
def pairLe (a b : String × UserStats) : Prop := a.1 ≤ b.1

instance : DecidableRel pairLe := fun a b => inferInstanceAs (Decidable (a.1 ≤ b.1))

instance : IsTotal (String × UserStats) pairLe :=
  ⟨fun a b => le_total a.1 b.1⟩

instance : IsTrans (String × UserStats) pairLe :=
  ⟨fun _ _ _ hab hbc => le_trans hab hbc⟩

/-- Extract the user-stats entries as string-keyed pairs.  Python's `sorted`
compares the keys; comparing a non-string key against a string raises
`TypeError`, so the formatter is modelled as failing (`none`) unless every
key is a string. -/
def strKeys : List (Val × UserStats) → Option (List (String × UserStats))
  | [] => some []
  | (Val.vstr k, s) :: rest => (strKeys rest).map (fun l => (k, s) :: l)
  | _ :: _ => none

/-- The sorted user-wise entries written by `generate_csv` (main.py line
217): the `user_stats` items in ascending key order, one per user. -/
def sortedUserItems (a : AnalysisResult) : Option (List (String × UserStats)) :=
  (strKeys a.user_stats).map (List.insertionSort pairLe)

/-- One data row of the USER-WISE PERFORMANCE section (main.py lines
218-228): user name followed by the eight counters in column order
`Total, Success, Failed, Lusha, Lusha Ph, Apollo, Apollo Ph, Total Ph`. -/
def userRowCells (k : String) (s : UserStats) : List String :=
  [k, toString s.total, toString s.success, toString s.failed,
   toString s.lusha_calls, toString s.lusha_phone_found,
   toString s.apollo_calls, toString s.apollo_phone_found,
   toString s.phone_found]

/-- Embedding of the rows written by `generate_csv` (main.py lines 189-230):
the OVERALL SUMMARY section, a blank row, then the USER-WISE PERFORMANCE
header and one row per user sorted by user name.  The timestamped filename
is not modelled.  `none` models the `TypeError` Python raises when sorting
non-string user keys. -/
def generate_csv (a : AnalysisResult) : Option (List (List String)) :=
  (sortedUserItems a).map (fun items =>
    [["OVERALL SUMMARY"], ["Metric", "Value"],
     ["Total API Calls", toString a.overall.total_calls],
     ["Successful Calls", toString a.overall.successful_calls],
     ["Failed Calls", toString a.overall.failed_calls],
     ["Apollo Calls", toString a.overall.apollo_calls],
     ["Lusha Calls", toString a.overall.lusha_calls],
     ["Phone Found Total", toString a.overall.phone_found_total],
     ["Apollo Phone Found", toString a.overall.apollo_phone_found_total],
     ["Lusha Phone Found", toString a.overall.lusha_phone_found_total],
     ["Phone Not Found", toString a.overall.phone_not_found_total],
     [],
     ["USER-WISE PERFORMANCE"],
     ["User", "Total", "Success", "Failed", "Lusha", "Lusha Ph", "Apollo",
      "Apollo Ph", "Total Ph"]]
    ++ items.map (fun p => userRowCells p.1 p.2))

/-- The environment-sourced email settings (main.py lines 24-29); `none`
models a variable absent from the environment. -/
structure EmailConfig where
  smtp_server : Option String := none
  smtp_password : Option String := none
  default_from_email : Option String := none
  recipient_email : Option String := none
deriving Repr

/-- Python truthiness of an optional environment string: `None` and the
empty string are falsy, as tested by `all([...])` at main.py line 238. -/
def truthy : Option String → Bool
  | none => false
  | some s => !s.isEmpty

/-- Outcome of `send_email_with_csv`: the early return on missing
configuration (main.py lines 238-241), or the boolean result of the
transport attempt made through `EmailService.send_email`. -/
inductive SendOutcome where
  | configurationError : SendOutcome
  | transportResult : Bool → SendOutcome
deriving DecidableEq, Repr

/-- Observable side effects of a run. -/
inductive RunEffect where
  | generatedCsv : RunEffect
  | openedTransport : RunEffect
  | sentEmail : RunEffect
deriving DecidableEq, Repr

/-- Embedding of `send_email_with_csv` (main.py lines 235-279): if any of
`SMTP_PASSWORD`, `DEFAULT_FROM_EMAIL`, `RECIPIENT_EMAIL` is falsy the
function returns early with no transport activity; otherwise it opens the
SMTP connection (main.py line 68) and attempts delivery, whose success is
the external parameter `transportOk`. -/
def send_email_with_csv (cfg : EmailConfig) (transportOk : Bool) :
    SendOutcome × List RunEffect :=
  if truthy cfg.smtp_password && truthy cfg.default_from_email &&
      truthy cfg.recipient_email then
    (SendOutcome.transportResult transportOk,
     RunEffect.openedTransport :: if transportOk then [RunEffect.sentEmail] else [])
  else
    (SendOutcome.configurationError, [])

/-- Embedding of `main` (main.py lines 284-302) as the list of effects it
performs: return immediately when the MongoDB connection fails (line 288)
or when no records were fetched (line 293); otherwise analyze, generate the
CSV file and send the email. -/
def mainRun (connected : Bool) (records : List Record) (cfg : EmailConfig)
    (transportOk : Bool) : List RunEffect :=
  if !connected then []
  else if records.length = 0 then []
  else RunEffect.generatedCsv :: (send_email_with_csv cfg transportOk).2

/-! ### Helper lemmas about the per-record bucket update -/

theorem bumpStats_total (r : Record) (s : UserStats) :
    (bumpStats r s).total = s.total + 1 := by
  unfold bumpStats
  cases h1 : isSuccess r <;> cases h2 : isPhoneFound r <;>
    cases h3 : isApollo r <;> simp [h1, h2, h3]

theorem bumpStats_success (r : Record) (s : UserStats) :
    (bumpStats r s).success = s.success + (if isSuccess r then 1 else 0) := by
  unfold bumpStats
  cases h1 : isSuccess r <;> cases h2 : isPhoneFound r <;>
    cases h3 : isApollo r <;> simp [h1, h2, h3]

theorem bumpStats_failed (r : Record) (s : UserStats) :
    (bumpStats r s).failed = s.failed + (if isSuccess r then 0 else 1) := by
  unfold bumpStats
  cases h1 : isSuccess r <;> cases h2 : isPhoneFound r <;>
    cases h3 : isApollo r <;> simp [h1, h2, h3]

theorem bumpStats_phone_found (r : Record) (s : UserStats) :
    (bumpStats r s).phone_found
      = s.phone_found + (if isPhoneFound r then 1 else 0) := by
  unfold bumpStats
  cases h1 : isSuccess r <;> cases h2 : isPhoneFound r <;>
    cases h3 : isApollo r <;> simp [h1, h2, h3]

theorem bumpStats_apollo_calls (r : Record) (s : UserStats) :
    (bumpStats r s).apollo_calls
      = s.apollo_calls + (if isApollo r then 1 else 0) := by
  unfold bumpStats
  cases h1 : isSuccess r <;> cases h2 : isPhoneFound r <;>
    cases h3 : isApollo r <;> simp [h1, h2, h3]

theorem bumpStats_lusha_calls (r : Record) (s : UserStats) :
    (bumpStats r s).lusha_calls
      = s.lusha_calls + (if isApollo r then 0 else 1) := by
  unfold bumpStats
  cases h1 : isSuccess r <;> cases h2 : isPhoneFound r <;>
    cases h3 : isApollo r <;> simp [h1, h2, h3]

theorem bumpStats_apollo_phone_found (r : Record) (s : UserStats) :
    (bumpStats r s).apollo_phone_found
      = s.apollo_phone_found
        + (if isPhoneFound r && isApollo r then 1 else 0) := by
  unfold bumpStats
  cases h1 : isSuccess r <;> cases h2 : isPhoneFound r <;>
    cases h3 : isApollo r <;> simp [h1, h2, h3]

theorem bumpStats_lusha_phone_found (r : Record) (s : UserStats) :
    (bumpStats r s).lusha_phone_found
      = s.lusha_phone_found
        + (if isPhoneFound r && !isApollo r then 1 else 0) := by
  unfold bumpStats
  cases h1 : isSuccess r <;> cases h2 : isPhoneFound r <;>
    cases h3 : isApollo r <;> simp [h1, h2, h3]

/-- The sum of one counter over all buckets of a user-stats association
list. -/
def sumBy (f : UserStats → Nat) : List (Val × UserStats) → Nat
  | [] => 0
  | p :: rest => f p.2 + sumBy f rest

theorem sumBy_addRecord (f : UserStats → Nat) (r : Record) (d : Nat)
    (h0 : f {} = 0) (hb : ∀ s, f (bumpStats r s) = f s + d) :
    ∀ us, sumBy f (addRecord us r) = sumBy f us + d
  | [] => by simp [sumBy, addRecord, hb, h0]
  | (k, s) :: rest => by
    by_cases hk : userKey r = k
    · simp only [addRecord, if_pos hk, sumBy, hb]
      omega
    · simp only [addRecord, if_neg hk, sumBy,
        sumBy_addRecord f r d h0 hb rest]
      omega

theorem sumBy_foldl (f : UserStats → Nat) (g : Record → Nat)
    (h0 : f {} = 0) (hb : ∀ r s, f (bumpStats r s) = f s + g r) :
    ∀ (records : List Record) (us : List (Val × UserStats)),
      sumBy f (records.foldl addRecord us)
        = sumBy f us + (records.map g).sum
  | [], _ => by simp
  | r :: rest, us => by
    simp only [List.foldl_cons, List.map_cons, List.sum_cons,
      sumBy_foldl f g h0 hb rest (addRecord us r),
      sumBy_addRecord f r (g r) h0 (hb r) us]
    omega

theorem sum_map_ite (p : Record → Bool) :
    ∀ l : List Record,
      (l.map (fun r => if p r then 1 else 0)).sum = l.countP p
  | [] => rfl
  | a :: l => by
    simp only [List.map_cons, List.sum_cons, List.countP_cons,
      sum_map_ite p l]
    cases p a <;> simp <;> omega

theorem sum_map_one : ∀ l : List Record,
    (l.map (fun _ => 1)).sum = l.length
  | [] => rfl
  | _ :: l => by simp [sum_map_one l]; omega

theorem countP_not_eq {α : Type} (p : α → Bool) :
    ∀ l : List α, l.countP (fun a => !p a) = l.length - l.countP p
  | [] => rfl
  | a :: l => by
    have hle := List.countP_le_length p (l := l)
    simp only [List.countP_cons, List.length_cons, countP_not_eq p l]
    cases p a <;> simp <;> omega

theorem countP_disjoint_add {α : Type} (p q : α → Bool)
    (h : ∀ a, ¬(p a = true ∧ q a = true)) :
    ∀ l : List α, l.countP p + l.countP q = l.countP (fun a => p a || q a)
  | [] => rfl
  | a :: l => by
    have ha := h a
    simp only [List.countP_cons, ← countP_disjoint_add p q h l]
    cases hp : p a <;> cases hq : q a <;> simp_all <;> omega

/-! ### Claim theorems -/

/-- C4: `analyze_records` counts a record as successful iff
`lusha_api_success` is exactly `true` and as failed iff it is exactly
`false`; hence `successful_calls + failed_calls ≤ total_calls` in the
overall statistics, with equality iff every record has `lusha_api_success`
explicitly set to `true` or `false`. -/
theorem overall_success_failed_semantics (records : List Record) :
    (analyze_records records).overall.successful_calls
      = records.countP
          (fun r => decide (r.lusha_api_success = some (Val.vbool true))) ∧
    (analyze_records records).overall.failed_calls
      = records.countP
          (fun r => decide (r.lusha_api_success = some (Val.vbool false))) ∧
    (analyze_records records).overall.successful_calls
        + (analyze_records records).overall.failed_calls
      ≤ (analyze_records records).overall.total_calls ∧
    ((analyze_records records).overall.successful_calls
          + (analyze_records records).overall.failed_calls
        = (analyze_records records).overall.total_calls ↔
      ∀ r ∈ records,
        r.lusha_api_success = some (Val.vbool true)
          ∨ r.lusha_api_success = some (Val.vbool false)) := by
  have hdisj : ∀ r : Record, ¬(isSuccess r = true ∧ isFailure r = true) := by
    intro r ⟨h1, h2⟩
    simp only [isSuccess, isFailure, decide_eq_true_eq] at h1 h2
    rw [h1] at h2
    exact Option.some.inj h2 |> Val.vbool.inj |> Bool.true_eq_false.mp
  have hsum := countP_disjoint_add isSuccess isFailure hdisj records
  refine ⟨rfl, rfl, ?_, ?_⟩
  · show records.countP isSuccess + records.countP isFailure ≤ records.length
    rw [hsum]
    exact List.countP_le_length _
  · show records.countP isSuccess + records.countP isFailure
        = records.length ↔ _
    rw [hsum, List.countP_eq_length]
    constructor
    · intro h r hr
      have := h r hr
      simpa [isSuccess, isFailure] using this
    · intro h r hr
      have := h r hr
      simpa [isSuccess, isFailure] using this

/-- C5: in the overall statistics, a record counts toward Apollo iff
`enrichment_source` equals `"APOLLO"` and otherwise counts toward Lusha
(including when the field is absent), and
`apollo_calls + lusha_calls = total_calls`. -/
theorem overall_provider_partition (records : List Record) :
    (analyze_records records).overall.apollo_calls
      = records.countP
          (fun r => decide (r.enrichment_source = some (Val.vstr "APOLLO"))) ∧
    (analyze_records records).overall.lusha_calls
      = records.countP
          (fun r => !decide (r.enrichment_source = some (Val.vstr "APOLLO"))) ∧
    (analyze_records records).overall.apollo_calls
        + (analyze_records records).overall.lusha_calls
      = (analyze_records records).overall.total_calls := by
  have hnot := countP_not_eq isApollo records
  have hle := List.countP_le_length isApollo (l := records)
  refine ⟨rfl, ?_, ?_⟩
  · show records.length - records.countP isApollo
        = records.countP (fun r => !isApollo r)
    exact hnot.symm
  · show records.countP isApollo
        + (records.length - records.countP isApollo) = records.length
    omega

/-- C1 counterexample: for the single-record list whose record has every
field absent, the sum of `failed` over the user buckets is 1 while the
overall `failed_calls` is 0, so the claimed equality between the per-user
sums and the overall counters fails for the `failed` counter. -/
theorem user_sums_failed_counterexample :
    sumBy UserStats.failed (analyze_records [({} : Record)]).user_stats = 1 ∧
    (analyze_records [({} : Record)]).overall.failed_calls = 0 ∧
    ¬ (sumBy UserStats.failed (analyze_records [({} : Record)]).user_stats
        = (analyze_records [({} : Record)]).overall.failed_calls) := by
  decide

/-- C1 amended: the per-user sums equal the overall counters for `total`,
`success`, `lusha_calls`, `apollo_calls`, `phone_found`,
`lusha_phone_found` and `apollo_phone_found`, while the sum of the per-user
`failed` counters equals `total_calls - successful_calls` (records with an
absent `lusha_api_success` count as failed per user, but not in the overall
`failed_calls`). -/
theorem user_sums_match_overall (records : List Record) :
    sumBy UserStats.total (analyze_records records).user_stats
      = (analyze_records records).overall.total_calls ∧
    sumBy UserStats.success (analyze_records records).user_stats
      = (analyze_records records).overall.successful_calls ∧
    sumBy UserStats.lusha_calls (analyze_records records).user_stats
      = (analyze_records records).overall.lusha_calls ∧
    sumBy UserStats.apollo_calls (analyze_records records).user_stats
      = (analyze_records records).overall.apollo_calls ∧
    sumBy UserStats.phone_found (analyze_records records).user_stats
      = (analyze_records records).overall.phone_found_total ∧
    sumBy UserStats.lusha_phone_found (analyze_records records).user_stats
      = (analyze_records records).overall.lusha_phone_found_total ∧
    sumBy UserStats.apollo_phone_found (analyze_records records).user_stats
      = (analyze_records records).overall.apollo_phone_found_total ∧
    sumBy UserStats.failed (analyze_records records).user_stats
      = (analyze_records records).overall.total_calls
        - (analyze_records records).overall.successful_calls := by
  refine ⟨?_, ?_, ?_, ?_, ?_, ?_, ?_, ?_⟩
  · show sumBy UserStats.total (records.foldl addRecord []) = records.length
    rw [sumBy_foldl UserStats.total (fun _ => 1) rfl
      (fun r s => bumpStats_total r s) records []]
    simp [sumBy, sum_map_one]
  · show sumBy UserStats.success (records.foldl addRecord [])
        = records.countP isSuccess
    rw [sumBy_foldl UserStats.success (fun r => if isSuccess r then 1 else 0)
      rfl (fun r s => bumpStats_success r s) records []]
    simp [sumBy, sum_map_ite]
  · show sumBy UserStats.lusha_calls (records.foldl addRecord [])
        = records.length - records.countP isApollo
    rw [sumBy_foldl UserStats.lusha_calls
      (fun r => if isApollo r then 0 else 1) rfl
      (fun r s => bumpStats_lusha_calls r s) records []]
    have : (records.map (fun r => if isApollo r then 0 else 1)).sum
        = records.countP (fun r => !isApollo r) := by
      rw [← sum_map_ite (fun r => !isApollo r) records]
      congr 1
      refine List.map_congr_left (fun r _ => ?_)
      cases isApollo r <;> simp
    simp [sumBy, this, countP_not_eq]
  · show sumBy UserStats.apollo_calls (records.foldl addRecord [])
        = records.countP isApollo
    rw [sumBy_foldl UserStats.apollo_calls
      (fun r => if isApollo r then 1 else 0) rfl
      (fun r s => bumpStats_apollo_calls r s) records []]
    simp [sumBy, sum_map_ite]
  · show sumBy UserStats.phone_found (records.foldl addRecord [])
        = records.countP isPhoneFound
    rw [sumBy_foldl UserStats.phone_found
      (fun r => if isPhoneFound r then 1 else 0) rfl
      (fun r s => bumpStats_phone_found r s) records []]
    simp [sumBy, sum_map_ite]
  · show sumBy UserStats.lusha_phone_found (records.foldl addRecord [])
        = records.countP (fun r => isPhoneFound r && !isApollo r)
    rw [sumBy_foldl UserStats.lusha_phone_found
      (fun r => if isPhoneFound r && !isApollo r then 1 else 0) rfl
      (fun r s => bumpStats_lusha_phone_found r s) records []]
    simp only [sumBy, Nat.zero_add]
    exact sum_map_ite _ records
  · show sumBy UserStats.apollo_phone_found (records.foldl addRecord [])
        = records.countP (fun r => isPhoneFound r && isApollo r)
    rw [sumBy_foldl UserStats.apollo_phone_found
      (fun r => if isPhoneFound r && isApollo r then 1 else 0) rfl
      (fun r s => bumpStats_apollo_phone_found r s) records []]
    simp only [sumBy, Nat.zero_add]
    exact sum_map_ite _ records
  · show sumBy UserStats.failed (records.foldl addRecord [])
        = records.length - records.countP isSuccess
    rw [sumBy_foldl UserStats.failed
      (fun r => if isSuccess r then 0 else 1) rfl
      (fun r s => bumpStats_failed r s) records []]
    have : (records.map (fun r => if isSuccess r then 0 else 1)).sum
        = records.countP (fun r => !isSuccess r) := by
      rw [← sum_map_ite (fun r => !isSuccess r) records]
      congr 1
      refine List.map_congr_left (fun r _ => ?_)
      cases isSuccess r <;> simp
    simp [sumBy, this, countP_not_eq]

/-- C2 counterexample: for the single record with every field absent, the
`"Unknown"` user bucket has `failed = 1` even though the record's
`lusha_api_success` field is absent, refuting the claim that a record
increments its user's `failed` counter only when the field is present and
exactly false. -/
theorem user_failed_absent_counterexample :
    (List.lookup (Val.vstr "Unknown")
        (analyze_records [({} : Record)]).user_stats).map UserStats.failed
      = some 1 ∧
    ¬ ((List.lookup (Val.vstr "Unknown")
        (analyze_records [({} : Record)]).user_stats).map UserStats.failed
      = some 0) := by
  decide

/-- C2 amended: the per-user counters of `analyze_records` increment a
user's `success` iff the record's `lusha_api_success` is exactly `true`,
and increment the user's `failed` otherwise — including when the field is
absent or `false`; for a single record this is exactly the bucket the
analysis produces. -/
theorem user_success_failed_rule (r : Record) (s : UserStats) :
    (analyze_records [r]).user_stats = [(userKey r, bumpStats r {})] ∧
    (bumpStats r s).success = s.success
      + (if r.lusha_api_success = some (Val.vbool true) then 1 else 0) ∧
    (bumpStats r s).failed = s.failed
      + (if r.lusha_api_success = some (Val.vbool true) then 0 else 1) := by
  refine ⟨rfl, ?_, ?_⟩
  · rw [bumpStats_success]
    simp only [isSuccess, decide_eq_true_eq]
  · rw [bumpStats_failed]
    simp only [isSuccess, decide_eq_true_eq]

/-- The two per-bucket invariants of C3. -/
def statsInv (s : UserStats) : Prop :=
  s.success + s.failed = s.total ∧ s.lusha_calls + s.apollo_calls = s.total

theorem statsInv_bump (r : Record) {s : UserStats} (h : statsInv s) :
    statsInv (bumpStats r s) := by
  obtain ⟨h1, h2⟩ := h
  constructor
  · rw [bumpStats_success, bumpStats_failed, bumpStats_total]
    cases isSuccess r <;> simp <;> omega
  · rw [bumpStats_lusha_calls, bumpStats_apollo_calls, bumpStats_total]
    cases isApollo r <;> simp <;> omega

theorem addRecord_inv (r : Record) :
    ∀ us, (∀ p ∈ us, statsInv p.2) → ∀ p ∈ addRecord us r, statsInv p.2
  | [], _, p, hp => by
    simp only [addRecord, List.mem_singleton] at hp
    subst hp
    exact statsInv_bump r ⟨rfl, rfl⟩
  | (k, s) :: rest, h, p, hp => by
    by_cases hk : userKey r = k
    · rw [addRecord, if_pos hk] at hp
      rcases List.mem_cons.mp hp with hp | hp
      · subst hp
        exact statsInv_bump r (h (k, s) (List.mem_cons_self _ _))
      · exact h p (List.mem_cons_of_mem _ hp)
    · rw [addRecord, if_neg hk] at hp
      rcases List.mem_cons.mp hp with hp | hp
      · subst hp
        exact h (k, s) (List.mem_cons_self _ _)
      · exact addRecord_inv r rest
          (fun q hq => h q (List.mem_cons_of_mem _ hq)) p hp

theorem foldl_inv :
    ∀ (records : List Record) (us : List (Val × UserStats)),
      (∀ p ∈ us, statsInv p.2) →
      ∀ p ∈ records.foldl addRecord us, statsInv p.2
  | [], _, h => h
  | r :: rest, us, h => by
    rw [List.foldl_cons]
    exact foldl_inv rest (addRecord us r) (addRecord_inv r us h)

/-- C3: every user bucket produced by `analyze_records` satisfies
`success + failed = total` and `lusha_calls + apollo_calls = total`. -/
theorem user_bucket_invariants (records : List Record) (k : Val)
    (s : UserStats) (h : (k, s) ∈ (analyze_records records).user_stats) :
    s.success + s.failed = s.total ∧
    s.lusha_calls + s.apollo_calls = s.total :=
  foldl_inv records [] (fun _ hp => absurd hp (List.not_mem_nil _)) (k, s) h

/-- C3 witness: the invariants hold on the concrete `"Unknown"` bucket
produced from a single all-absent record. -/
theorem user_bucket_invariants_witness :
    ((Val.vstr "Unknown",
        ({ total := 1, failed := 1, lusha_calls := 1 } : UserStats))
      ∈ (analyze_records [({} : Record)]).user_stats) ∧
    (({ total := 1, failed := 1, lusha_calls := 1 } : UserStats).success
        + ({ total := 1, failed := 1, lusha_calls := 1 } : UserStats).failed
      = ({ total := 1, failed := 1, lusha_calls := 1 } : UserStats).total ∧
    ({ total := 1, failed := 1, lusha_calls := 1 } : UserStats).lusha_calls
        + ({ total := 1, failed := 1,
             lusha_calls := 1 } : UserStats).apollo_calls
      = ({ total := 1, failed := 1, lusha_calls := 1 } : UserStats).total) :=
  ⟨by decide,
   user_bucket_invariants [({} : Record)] (Val.vstr "Unknown")
     { total := 1, failed := 1, lusha_calls := 1 } (by decide)⟩

/-- C6: on the three-record Scenario B input (alice successful Lusha call
with phone found, bob failed Apollo call without phone, and a record with
every field absent), `analyze_records` returns the expected overall
counters and one bucket of total 1 for each of alice, bob and Unknown. -/
theorem scenario_b :
    (analyze_records
      [{ user_name := some (Val.vstr "alice"),
         lusha_api_success := some (Val.vbool true),
         phone_found := some (Val.vbool true),
         enrichment_source := some (Val.vstr "LUSHA") },
       { user_name := some (Val.vstr "bob"),
         lusha_api_success := some (Val.vbool false),
         phone_found := some (Val.vbool false),
         enrichment_source := some (Val.vstr "APOLLO") },
       ({} : Record)]).overall
      = { total_calls := 3, successful_calls := 1, failed_calls := 1,
          apollo_calls := 1, lusha_calls := 2, phone_found_total := 1,
          phone_not_found_total := 1, apollo_phone_found_total := 0,
          lusha_phone_found_total := 1 } ∧
    (analyze_records
      [{ user_name := some (Val.vstr "alice"),
         lusha_api_success := some (Val.vbool true),
         phone_found := some (Val.vbool true),
         enrichment_source := some (Val.vstr "LUSHA") },
       { user_name := some (Val.vstr "bob"),
         lusha_api_success := some (Val.vbool false),
         phone_found := some (Val.vbool false),
         enrichment_source := some (Val.vstr "APOLLO") },
       ({} : Record)]).user_stats.map Prod.fst
      = [Val.vstr "alice", Val.vstr "bob", Val.vstr "Unknown"] ∧
    (analyze_records
      [{ user_name := some (Val.vstr "alice"),
         lusha_api_success := some (Val.vbool true),
         phone_found := some (Val.vbool true),
         enrichment_source := some (Val.vstr "LUSHA") },
       { user_name := some (Val.vstr "bob"),
         lusha_api_success := some (Val.vbool false),
         phone_found := some (Val.vbool false),
         enrichment_source := some (Val.vstr "APOLLO") },
       ({} : Record)]).user_stats.map (fun p => p.2.total)
      = [1, 1, 1] := by
  refine ⟨?_, ?_, ?_⟩ <;> decide

/-- C10: a record whose `user_name` field is present is keyed by that value
itself — including a present null — while the `"Unknown"` default applies
only when the field is entirely absent; in particular, a present-null
record yields a bucket keyed by null. -/
theorem null_user_name_key (v : Val) (ls pf es : Option Val) :
    userKey { user_name := some v, lusha_api_success := ls,
              phone_found := pf, enrichment_source := es } = v ∧
    userKey { user_name := none, lusha_api_success := ls,
              phone_found := pf, enrichment_source := es }
      = Val.vstr "Unknown" ∧
    (analyze_records
      [{ user_name := some Val.vnull, lusha_api_success := ls,
         phone_found := pf, enrichment_source := es }]).user_stats.map
        Prod.fst
      = [Val.vnull] :=
  ⟨rfl, rfl, rfl⟩

/-! ### Key uniqueness of the user map and the sorted report rows -/

theorem addRecord_keys (r : Record) :
    ∀ us : List (Val × UserStats),
      (addRecord us r).map Prod.fst
        = if userKey r ∈ us.map Prod.fst then us.map Prod.fst
          else us.map Prod.fst ++ [userKey r]
  | [] => by simp [addRecord]
  | (k, s) :: rest => by
    by_cases hk : userKey r = k
    · simp [addRecord, hk]
    · simp only [addRecord, if_neg hk, List.map_cons, addRecord_keys r rest,
        List.mem_cons]
      by_cases hm : userKey r ∈ rest.map Prod.fst
      · simp [hm, hk]
      · simp [hm, hk]

theorem addRecord_keys_nodup (r : Record) (us : List (Val × UserStats))
    (h : (us.map Prod.fst).Nodup) :
    ((addRecord us r).map Prod.fst).Nodup := by
  rw [addRecord_keys r us]
  by_cases hm : userKey r ∈ us.map Prod.fst
  · simpa [hm] using h
  · simp [hm, List.nodup_append, h]

theorem foldl_keys_nodup :
    ∀ (records : List Record) (us : List (Val × UserStats)),
      (us.map Prod.fst).Nodup →
      ((records.foldl addRecord us).map Prod.fst).Nodup
  | [], _, h => h
  | r :: rest, us, h => by
    rw [List.foldl_cons]
    exact foldl_keys_nodup rest (addRecord us r) (addRecord_keys_nodup r us h)

theorem analyze_keys_nodup (records : List Record) :
    ((analyze_records records).user_stats.map Prod.fst).Nodup :=
  foldl_keys_nodup records [] (by simp)

theorem strKeys_map_fst :
    ∀ (us : List (Val × UserStats)) (pairs : List (String × UserStats)),
      strKeys us = some pairs →
      us.map Prod.fst = pairs.map (fun p => Val.vstr p.1)
  | [], pairs, h => by
    simp only [strKeys, Option.some.injEq] at h
    subst h
    rfl
  | (Val.vstr k, s) :: rest, pairs, h => by
    simp only [strKeys, Option.map_eq_some'] at h
    obtain ⟨l, hl, hp⟩ := h
    subst hp
    simp [strKeys_map_fst rest l hl]
  | (Val.vnull, _) :: _, _, h => by simp [strKeys] at h
  | (Val.vbool _, _) :: _, _, h => by simp [strKeys] at h

theorem strKeys_keys_nodup (us : List (Val × UserStats))
    (pairs : List (String × UserStats)) (h : strKeys us = some pairs)
    (hn : (us.map Prod.fst).Nodup) : (pairs.map Prod.fst).Nodup := by
  rw [strKeys_map_fst us pairs h] at hn
  have hcomp : pairs.map (fun p => Val.vstr p.1)
      = (pairs.map Prod.fst).map Val.vstr := by
    rw [List.map_map]
    rfl
  rw [hcomp] at hn
  exact hn.of_map Val.vstr

/-- C7: the user-wise section of the report built by `generate_csv`
contains exactly one row per user of the analysis result (the sorted items
are a permutation of the user-stats entries) and the rows appear in
strictly ascending lexicographic order of user name. -/
theorem csv_user_rows_sorted (records : List Record)
    (pairs items : List (String × UserStats))
    (h1 : strKeys (analyze_records records).user_stats = some pairs)
    (h2 : sortedUserItems (analyze_records records) = some items) :
    items.Perm pairs ∧ items.Pairwise (fun a b => a.1 < b.1) := by
  have hitems : items = List.insertionSort pairLe pairs := by
    unfold sortedUserItems at h2
    rw [h1] at h2
    simpa using h2.symm
  subst hitems
  have hperm := List.perm_insertionSort pairLe pairs
  refine ⟨hperm, ?_⟩
  have hsorted : List.Sorted pairLe (List.insertionSort pairLe pairs) :=
    List.sorted_insertionSort pairLe pairs
  have hnk : ((List.insertionSort pairLe pairs).map Prod.fst).Nodup := by
    have hps := strKeys_keys_nodup _ pairs h1 (analyze_keys_nodup records)
    exact ((hperm.map Prod.fst).nodup_iff).mpr hps
  have hne : (List.insertionSort pairLe pairs).Pairwise
      (fun a b => a.1 ≠ b.1) := List.pairwise_map.mp hnk
  exact (hsorted.and hne).imp (fun hab => lt_of_le_of_ne hab.1 hab.2)

/-- C7 witness: on the concrete Scenario B input the hypotheses hold and
the rows come out as Unknown, alice, bob — strictly ascending with one row
per user. -/
theorem csv_user_rows_sorted_witness :
    strKeys (analyze_records
      [{ user_name := some (Val.vstr "alice"),
         lusha_api_success := some (Val.vbool true),
         phone_found := some (Val.vbool true),
         enrichment_source := some (Val.vstr "LUSHA") },
       { user_name := some (Val.vstr "bob"),
         lusha_api_success := some (Val.vbool false),
         phone_found := some (Val.vbool false),
         enrichment_source := some (Val.vstr "APOLLO") },
       ({} : Record)]).user_stats
      = some
        [("alice", { total := 1, success := 1, lusha_calls := 1,
                     lusha_phone_found := 1, phone_found := 1 }),
         ("bob", { total := 1, failed := 1, apollo_calls := 1 }),
         ("Unknown", { total := 1, failed := 1, lusha_calls := 1 })] ∧
    sortedUserItems (analyze_records
      [{ user_name := some (Val.vstr "alice"),
         lusha_api_success := some (Val.vbool true),
         phone_found := some (Val.vbool true),
         enrichment_source := some (Val.vstr "LUSHA") },
       { user_name := some (Val.vstr "bob"),
         lusha_api_success := some (Val.vbool false),
         phone_found := some (Val.vbool false),
         enrichment_source := some (Val.vstr "APOLLO") },
       ({} : Record)])
      = some
        [("Unknown", { total := 1, failed := 1, lusha_calls := 1 }),
         ("alice", { total := 1, success := 1, lusha_calls := 1,
                     lusha_phone_found := 1, phone_found := 1 }),
         ("bob", { total := 1, failed := 1, apollo_calls := 1 })] ∧
    (List.Perm
        [("Unknown",
            ({ total := 1, failed := 1, lusha_calls := 1 } : UserStats)),
         ("alice", { total := 1, success := 1, lusha_calls := 1,
                     lusha_phone_found := 1, phone_found := 1 }),
         ("bob", { total := 1, failed := 1, apollo_calls := 1 })]
        [("alice", { total := 1, success := 1, lusha_calls := 1,
                     lusha_phone_found := 1, phone_found := 1 }),
         ("bob", { total := 1, failed := 1, apollo_calls := 1 }),
         ("Unknown", { total := 1, failed := 1, lusha_calls := 1 })] ∧
      List.Pairwise (fun a b => a.1 < b.1)
        [("Unknown",
            ({ total := 1, failed := 1, lusha_calls := 1 } : UserStats)),
         ("alice", { total := 1, success := 1, lusha_calls := 1,
                     lusha_phone_found := 1, phone_found := 1 }),
         ("bob", { total := 1, failed := 1, apollo_calls := 1 })]) := by
  have h1 : strKeys (analyze_records
      [{ user_name := some (Val.vstr "alice"),
         lusha_api_success := some (Val.vbool true),
         phone_found := some (Val.vbool true),
         enrichment_source := some (Val.vstr "LUSHA") },
       { user_name := some (Val.vstr "bob"),
         lusha_api_success := some (Val.vbool false),
         phone_found := some (Val.vbool false),
         enrichment_source := some (Val.vstr "APOLLO") },
       ({} : Record)]).user_stats
      = some
        [("alice", { total := 1, success := 1, lusha_calls := 1,
                     lusha_phone_found := 1, phone_found := 1 }),
         ("bob", { total := 1, failed := 1, apollo_calls := 1 }),
         ("Unknown", { total := 1, failed := 1, lusha_calls := 1 })] := by
    decide
  have h2 : sortedUserItems (analyze_records
      [{ user_name := some (Val.vstr "alice"),
         lusha_api_success := some (Val.vbool true),
         phone_found := some (Val.vbool true),
         enrichment_source := some (Val.vstr "LUSHA") },
       { user_name := some (Val.vstr "bob"),
         lusha_api_success := some (Val.vbool false),
         phone_found := some (Val.vbool false),
         enrichment_source := some (Val.vstr "APOLLO") },
       ({} : Record)])
      = some
        [("Unknown", { total := 1, failed := 1, lusha_calls := 1 }),
         ("alice", { total := 1, success := 1, lusha_calls := 1,
                     lusha_phone_found := 1, phone_found := 1 }),
         ("bob", { total := 1, failed := 1, apollo_calls := 1 })] := by
    unfold sortedUserItems
    rw [h1]
    simp only [Option.map_some', List.insertionSort, List.orderedInsert,
      pairLe, String.le_iff_toList_le]
    decide
  exact ⟨h1, h2, csv_user_rows_sorted _ _ _ h1 h2⟩

/-- C8: a run whose fetched record list is empty performs no formatting and
no delivery — `main` returns before generating any report file or opening
the mail transport, an effect-free successful no-op. -/
theorem empty_run_no_output (connected : Bool) (cfg : EmailConfig)
    (transportOk : Bool) :
    mainRun connected [] cfg transportOk = [] ∧
    RunEffect.generatedCsv ∉ mainRun connected [] cfg transportOk ∧
    RunEffect.sentEmail ∉ mainRun connected [] cfg transportOk := by
  cases connected <;> simp [mainRun]

/-- C9: when any of the required email settings (`SMTP_PASSWORD`,
`DEFAULT_FROM_EMAIL`, `RECIPIENT_EMAIL`) is missing or empty — in
particular a missing recipient address — `send_email_with_csv` fails with
the configuration-error outcome, performs no effects and never opens a
transport connection. -/
theorem missing_config_no_send (cfg : EmailConfig) (transportOk : Bool)
    (h : truthy cfg.smtp_password = false
        ∨ truthy cfg.default_from_email = false
        ∨ truthy cfg.recipient_email = false) :
    (send_email_with_csv cfg transportOk).1
      = SendOutcome.configurationError ∧
    (send_email_with_csv cfg transportOk).2 = [] ∧
    RunEffect.openedTransport ∉ (send_email_with_csv cfg transportOk).2 := by
  have hcond : (truthy cfg.smtp_password && truthy cfg.default_from_email &&
      truthy cfg.recipient_email) = false := by
    rcases h with h | h | h <;> simp [h]
  simp [send_email_with_csv, hcond]

/-- C9 witness: a configuration with credentials present but the recipient
address missing fails with the configuration-error outcome and opens no
transport connection. -/
theorem missing_config_no_send_witness :
    (truthy ({ smtp_server := some "smtp.example.com",
               smtp_password := some "hunter2",
               default_from_email := some "reports@example.com" }
        : EmailConfig).smtp_password = false
      ∨ truthy ({ smtp_server := some "smtp.example.com",
                  smtp_password := some "hunter2",
                  default_from_email := some "reports@example.com" }
          : EmailConfig).default_from_email = false
      ∨ truthy ({ smtp_server := some "smtp.example.com",
                  smtp_password := some "hunter2",
                  default_from_email := some "reports@example.com" }
          : EmailConfig).recipient_email = false) ∧
    ((send_email_with_csv
        { smtp_server := some "smtp.example.com",
          smtp_password := some "hunter2",
          default_from_email := some "reports@example.com" } true).1
      = SendOutcome.configurationError ∧
    (send_email_with_csv
        { smtp_server := some "smtp.example.com",
          smtp_password := some "hunter2",
          default_from_email := some "reports@example.com" } true).2 = [] ∧
    RunEffect.openedTransport ∉ (send_email_with_csv
        { smtp_server := some "smtp.example.com",
          smtp_password := some "hunter2",
          default_from_email := some "reports@example.com" } true).2) :=
  ⟨Or.inr (Or.inr rfl),
   missing_config_no_send _ true (Or.inr (Or.inr rfl))⟩

end LushaApollo
